import Mathlib

/-!
Verification of the pecfest-website/Backend-2019 data model.

The repository is a Django backend whose substantive content is the declarative
data model in `src/events/models.py` plus the deployment configuration in
`src/pecfest2019/settings/production.py`.  We shallowly embed the model layer:

* every model inherits from `BaseModel`, whose overridden `save` maintains the
  `record_created` / `record_modified` audit timestamps - embedded as
  `AuditRecord` and `auditSave`;
* each Django model class becomes a Lean structure carrying an `AuditRecord`
  plus its declared fields (foreign keys become ids, nullable fields become
  `Option`, many-to-many relations become explicit join-row lists in the
  database state);
* the database is `DbState`, and the delete behaviour declared on each foreign
  key (`CASCADE`, `SET_NULL`, `PROTECT`) is embedded as the corresponding
  state transformer, following the Django collector semantics the declarations
  configure;
* `MinValueValidator(0)` on the team-size fields becomes
  `validateEventTeamSizes`;
* `HistoricalRecords()` on `Event` (the `simple_history` integration) becomes
  an append-only `HistoricalEvent` log threaded through `Event.save`;
* `path_and_rename` is translated directly from the source.

Timestamps and primary keys are modelled as `Nat`; on unsaved instances the
primary key is `none`, matching Django's `None` pk before the first save.
-/

namespace Pecfest

/-- Audit fields shared by every entity through `BaseModel`
(`src/events/models.py`, lines 12-14): a creation timestamp and a
last-modified timestamp, plus the primary key (`none` before first save). -/
structure AuditRecord where
  id : Option Nat
  record_created : Option Nat
  record_modified : Option Nat
deriving Repr, DecidableEq

/-- `BaseModel.save` (`src/events/models.py`, lines 16-21): on save, if the
instance has no id yet, stamp `record_created`; always stamp
`record_modified`; then the underlying save assigns a fresh primary key to a
new row (Django keeps an existing pk unchanged). -/
def auditSave (r : AuditRecord) (now : Nat) (freshId : Nat) : AuditRecord :=
  let r1 := if r.id = none then { r with record_created := some now } else r
  let r2 := { r1 with record_modified := some now }
  { r2 with id := some (r2.id.getD freshId) }

/-- `simple_history` row kinds: a history row is written on create, on every
update, and on delete. -/
inductive HistType
  | created
  | changed
  | deleted
deriving Repr, DecidableEq

/-- `Club` (`src/events/models.py`, lines 24-28). -/
structure Club where
  base : AuditRecord
  name : String
deriving Repr, DecidableEq

/-- `EventCategory` (`src/events/models.py`, lines 31-39). -/
structure EventCategory where
  base : AuditRecord
  name : String
  coverImage : Option String
deriving Repr, DecidableEq

/-- `EventType` (`src/events/models.py`, lines 42-52); `eventCategory` is a
nullable foreign key to `EventCategory` with `on_delete=CASCADE`. -/
structure EventType where
  base : AuditRecord
  name : String
  eventCategory : Option Nat
  coverImage : Option String
deriving Repr, DecidableEq

/-- `Event` (`src/events/models.py`, lines 55-88).  `eventType` is a nullable
foreign key with `on_delete=SET_NULL`; `association` (the club) likewise.
The `coordinators` many-to-many rows live in `DbState.eventCoordinators`. -/
structure Event where
  base : AuditRecord
  name : String
  locations : String
  dateTime : Nat
  prize : String
  minTeam : Int
  maxTeam : Int
  eventType : Option Nat
  association : Option Nat
  details : String
  shortDescription : String
  ruleList : String
  poster : Option String
  rulesPDF : Option String
deriving Repr, DecidableEq

/-- A `simple_history` snapshot row for `Event` (`history = HistoricalRecords()`,
`src/events/models.py`, line 85): a full copy of the instance's fields at the
time of the change, the change time, and the change kind. -/
structure HistoricalEvent where
  snapshot : Event
  history_date : Nat
  history_type : HistType
deriving Repr, DecidableEq

/-- `Registration` (`src/events/models.py`, lines 91-101): foreign keys to
`Event` and to the auth `User`, both `on_delete=CASCADE`; no uniqueness
constraint is declared on the pair. -/
structure Registration where
  base : AuditRecord
  registered_event : Nat
  participant : Nat
deriving Repr, DecidableEq

/-- `Sponsor` (`src/events/models.py`, lines 104-111). -/
structure Sponsor where
  base : AuditRecord
  name : String
  tagline : Option String
  partnership : Option String
  logo : Option String
deriving Repr, DecidableEq

/-- `Brochure` (`src/events/models.py`, lines 114-119). -/
structure Brochure where
  base : AuditRecord
  name : String
  brochurePDF : Option String
deriving Repr, DecidableEq

/-- `DetailWinner` (`src/events/models.py`, lines 135-149): `user` is a
one-to-one foreign key to the auth `User` with `on_delete=CASCADE`. -/
structure DetailWinner where
  base : AuditRecord
  user : Nat
  accountHolderName : String
  fatherName : String
  accountNumber : String
  IFSC : String
  panCardNumber : String
  panCardPhoto : Option String
deriving Repr, DecidableEq

/-- `TeamWinner` (`src/events/models.py`, lines 152-165); its `members`
many-to-many rows to `DetailWinner` live in `DbState.teamWinnerMembers`. -/
structure TeamWinner where
  base : AuditRecord
  TeamName : String
deriving Repr, DecidableEq

/-- `Winners` (`src/events/models.py`, lines 168-183): one-to-one to `Event`
and to first/second/third `TeamWinner`, all with `on_delete=PROTECT`
(second and third nullable). -/
structure Winners where
  base : AuditRecord
  eventName : Nat
  firstWinner : Nat
  secondWinner : Option Nat
  thirdWinner : Option Nat
deriving Repr, DecidableEq

/-- `BaseModel.save` specialised to `Club`. -/
def Club.save (c : Club) (now freshId : Nat) : Club :=
  { c with base := auditSave c.base now freshId }

/-- `BaseModel.save` specialised to `EventCategory`. -/
def EventCategory.save (c : EventCategory) (now freshId : Nat) : EventCategory :=
  { c with base := auditSave c.base now freshId }

/-- `BaseModel.save` specialised to `EventType`. -/
def EventType.save (t : EventType) (now freshId : Nat) : EventType :=
  { t with base := auditSave t.base now freshId }

/-- `BaseModel.save` specialised to `Registration`. -/
def Registration.save (r : Registration) (now freshId : Nat) : Registration :=
  { r with base := auditSave r.base now freshId }

/-- `BaseModel.save` specialised to `Sponsor`. -/
def Sponsor.save (s : Sponsor) (now freshId : Nat) : Sponsor :=
  { s with base := auditSave s.base now freshId }

/-- `BaseModel.save` specialised to `Brochure`. -/
def Brochure.save (b : Brochure) (now freshId : Nat) : Brochure :=
  { b with base := auditSave b.base now freshId }

/-- `BaseModel.save` specialised to `DetailWinner`. -/
def DetailWinner.save (d : DetailWinner) (now freshId : Nat) : DetailWinner :=
  { d with base := auditSave d.base now freshId }

/-- `BaseModel.save` specialised to `TeamWinner`. -/
def TeamWinner.save (t : TeamWinner) (now freshId : Nat) : TeamWinner :=
  { t with base := auditSave t.base now freshId }

/-- `BaseModel.save` specialised to `Winners`. -/
def Winners.save (w : Winners) (now freshId : Nat) : Winners :=
  { w with base := auditSave w.base now freshId }

/-- `BaseModel.save` specialised to `Event`, together with the
`simple_history` post-save hook configured by `history = HistoricalRecords()`
(`src/events/models.py`, line 85): each save appends one snapshot of the saved
instance to the append-only log, marked `created` on first save and `changed`
on later saves. -/
def Event.save (e : Event) (hist : List HistoricalEvent) (now freshId : Nat) :
    Event × List HistoricalEvent :=
  let wasNew := e.base.id = none
  let saved : Event := { e with base := auditSave e.base now freshId }
  (saved,
    hist ++ [{ snapshot := saved, history_date := now,
               history_type := if wasNew then HistType.created else HistType.changed }])

/-- Error taxonomy surfaced by the API layer (spec section 7): validation
rejection, permission rejection, delete blocked by a protected reference,
lookup miss. -/
inductive ApiError
  | validationError
  | permissionDenied
  | protectedReference
  | notFound
deriving Repr, DecidableEq

/-- `django.core.validators.MinValueValidator(limit)`: the validator fires
(raises ValidationError) exactly when the value is strictly below `limit`. -/
def minValueValidator (limit v : Int) : Bool :=
  decide (v < limit)

/-- Team-size validation on `Event` (`src/events/models.py`, lines 68-69):
`minTeam` and `maxTeam` each carry `validators=[MinValueValidator(0)]`, run by
`full_clean` on create and on update; no other constraint relates the two
fields. -/
def validateEventTeamSizes (e : Event) : Except ApiError Unit :=
  if minValueValidator 0 e.minTeam || minValueValidator 0 e.maxTeam then
    Except.error ApiError.validationError
  else
    Except.ok ()

/-- The relational database state: one row list per entity table, plus the
join-row lists of the declared many-to-many relations
(`Event.coordinators`, `TeamWinner.members`) and the append-only
`simple_history` table for `Event`.  `users` holds the ids of the externally
supplied auth `User` rows. -/
structure DbState where
  users : List Nat
  clubs : List Club
  eventCategories : List EventCategory
  eventTypes : List EventType
  events : List Event
  eventCoordinators : List (Nat × Nat)
  registrations : List Registration
  sponsors : List Sponsor
  brochures : List Brochure
  detailWinners : List DetailWinner
  teamWinners : List TeamWinner
  teamWinnerMembers : List (Nat × Nat)
  winners : List Winners
  eventHistory : List HistoricalEvent
deriving Repr, DecidableEq

/-- Deleting an `Event`.  `Winners.eventName` is a one-to-one to `Event` with
`on_delete=PROTECT` (`src/events/models.py`, line 170), so the delete is
refused while a `Winners` row references the event and nothing is changed.
Otherwise the event row is removed, every `Registration` whose
`registered_event` is the event is cascaded away (`on_delete=CASCADE`, line
92), the `coordinators` join rows disappear with the row, and `simple_history`
appends a deletion snapshot for the removed instance. -/
def deleteEvent (s : DbState) (eid : Nat) (now : Nat) : Except ApiError DbState :=
  if s.winners.any (fun w => w.eventName == eid) then
    Except.error ApiError.protectedReference
  else
    Except.ok { s with
      events := s.events.filter (fun e => !(e.base.id == some eid)),
      registrations := s.registrations.filter (fun r => !(r.registered_event == eid)),
      eventCoordinators := s.eventCoordinators.filter (fun p => !(p.1 == eid)),
      eventHistory := s.eventHistory ++
        ((s.events.filter (fun e => e.base.id == some eid)).map
          (fun e => { snapshot := e, history_date := now,
                      history_type := HistType.deleted })) }

/-- Deleting an auth `User`.  The cascade set declared in the source: every
`Registration` whose `participant` is the user (`on_delete=CASCADE`, line 93)
and the user's `DetailWinner` row (`user` one-to-one, `on_delete=CASCADE`,
line 137) are removed; the `Event.coordinators` and `TeamWinner.members` join
rows touching the removed rows disappear.  Nothing protects a `User`, so the
delete always succeeds. -/
def deleteUser (s : DbState) (uid : Nat) : DbState :=
  let deadDWIds := (s.detailWinners.filter (fun d => d.user == uid)).filterMap
    (fun d => d.base.id)
  { s with
    users := s.users.filter (fun u => !(u == uid)),
    registrations := s.registrations.filter (fun r => !(r.participant == uid)),
    detailWinners := s.detailWinners.filter (fun d => !(d.user == uid)),
    teamWinnerMembers := s.teamWinnerMembers.filter (fun p => !(deadDWIds.contains p.2)),
    eventCoordinators := s.eventCoordinators.filter (fun p => !(p.2 == uid)) }

/-- Deleting an `EventCategory`.  `EventType.eventCategory` has
`on_delete=CASCADE` (`src/events/models.py`, line 44), so every `EventType` of
the category is deleted with it; each `Event` referencing one of those deleted
types is kept with `eventType` set to null (`Event.eventType` has
`on_delete=SET_NULL`, line 73), all its other fields untouched. -/
def deleteEventCategory (s : DbState) (cid : Nat) : DbState :=
  let deadTypeIds := (s.eventTypes.filter (fun t => t.eventCategory == some cid)).filterMap
    (fun t => t.base.id)
  { s with
    eventCategories := s.eventCategories.filter (fun c => !(c.base.id == some cid)),
    eventTypes := s.eventTypes.filter (fun t => !(t.eventCategory == some cid)),
    events := s.events.map (fun e =>
      if e.eventType.any (fun i => deadTypeIds.contains i) then
        { e with eventType := none }
      else e) }

/-- Deleting a `Club`.  `Event.association` has `on_delete=SET_NULL`
(`src/events/models.py`, line 76): each `Event` of the club survives with
`association` nulled, all other fields untouched. -/
def deleteClub (s : DbState) (cid : Nat) : DbState :=
  { s with
    clubs := s.clubs.filter (fun c => !(c.base.id == some cid)),
    events := s.events.map (fun e =>
      if e.association == some cid then { e with association := none } else e) }

/-- Deleting a `TeamWinner`.  `Winners.firstWinner` / `secondWinner` /
`thirdWinner` are one-to-one to `TeamWinner` with `on_delete=PROTECT`
(`src/events/models.py`, lines 171-177): the delete is refused while any
`Winners` row references the team.  Otherwise the row and its `members` join
rows are removed. -/
def deleteTeamWinner (s : DbState) (tid : Nat) : Except ApiError DbState :=
  if s.winners.any (fun w =>
      w.firstWinner == tid || w.secondWinner == some tid || w.thirdWinner == some tid) then
    Except.error ApiError.protectedReference
  else
    Except.ok { s with
      teamWinners := s.teamWinners.filter (fun t => !(t.base.id == some tid)),
      teamWinnerMembers := s.teamWinnerMembers.filter (fun p => !(p.1 == tid)) }

/-- Deleting a `DetailWinner`.  The only inbound relation is
`TeamWinner.members`, a plain `ManyToManyField` (`src/events/models.py`,
line 158), which carries no `on_delete` protection: deleting the row always
succeeds and merely removes the membership join rows pointing at it. -/
def deleteDetailWinner (s : DbState) (did : Nat) : Except ApiError DbState :=
  Except.ok { s with
    detailWinners := s.detailWinners.filter (fun d => !(d.base.id == some did)),
    teamWinnerMembers := s.teamWinnerMembers.filter (fun p => !(p.2 == did)) }

/-- Creating a single `Registration` row for participant `uid` on event `eid`:
the model declares no uniqueness constraint on the pair
(`src/events/models.py`, lines 91-101), so the save is an unconditional
insert. -/
def createRegistration (s : DbState) (eid uid now freshId : Nat) : DbState :=
  let row : Registration :=
    Registration.save { base := ⟨none, none, none⟩, registered_event := eid,
                        participant := uid } now freshId
  { s with registrations := s.registrations ++ [row] }

/-- One row of a bulk `Registration` import file. -/
structure RegistrationRow where
  registered_event : Nat
  participant : Nat
deriving Repr, DecidableEq

/-- Row validation for a bulk import: the foreign keys must resolve to an
existing `Event` and an existing `User`. -/
def registrationRowValid (s : DbState) (r : RegistrationRow) : Bool :=
  s.events.any (fun e => e.base.id == some r.registered_event) &&
    s.users.contains r.participant

/-- Modelled from the spec: the bulk-import pipeline itself (the
django-import-export admin integration) is not part of src/; src/ contributes
only its configuration - `Registration.Meta.permissions` declaring the
dedicated `allowed_import` permission (`src/events/models.py`, lines 98-101)
and `IMPORT_EXPORT_IMPORT_PERMISSION_CODE = "allowed_import"` with
`IMPORT_EXPORT_USE_TRANSACTIONS = True`
(`src/pecfest2019/settings/production.py`, lines 185-186).  Per the spec, a
caller without the permission is refused with PermissionDenied and nothing is
persisted; a caller with it runs the import in one transaction: if every row
validates, all rows are inserted, and if any row fails validation, none is. -/
def bulkImport (hasAllowedImport : Bool) (rows : List RegistrationRow)
    (s : DbState) (now freshId : Nat) : Except ApiError DbState :=
  if !hasAllowedImport then
    Except.error ApiError.permissionDenied
  else if rows.all (registrationRowValid s) then
    Except.ok { s with
      registrations := s.registrations ++
        (rows.enum.map (fun p =>
          Registration.save { base := ⟨none, none, none⟩,
                              registered_event := p.2.registered_event,
                              participant := p.2.participant } now (freshId + p.1))) }
  else
    Except.error ApiError.validationError

/-- The chars after the last `'.'` of the list (the whole list when no dot
occurs): the value of Python's `split('.')[-1]`. -/
def lastDotComponent (cs : List Char) : List Char :=
  cs.foldl (fun acc c => if c = Char.ofNat 46 then [] else acc ++ [c]) []

/-- The extension `path_and_rename` extracts: `filename.split('.')[-1]`, the
last dot-separated component of the original file name. -/
def fileExt (filename : String) : String :=
  ⟨lastDotComponent filename.data⟩

/-- `path_and_rename` (`src/events/models.py`, lines 122-132), translated
directly: the upload directory is `PanCard`; the extension is the last
dot-separated component of the original file name; the stem is the owning
user's username when the instance already has a primary key, and the hex form
of a freshly drawn `uuid4` otherwise.  The random draw is passed in as
`uuid4hex`. -/
def path_and_rename (pk : Option Nat) (username : String) (uuid4hex : String)
    (filename : String) : String :=
  let upload_to := "PanCard"
  let ext := fileExt filename
  let newName :=
    if pk.isSome then username ++ "." ++ ext
    else uuid4hex ++ "." ++ ext
  upload_to ++ "/" ++ newName

/-- A string is the hex form of a `uuid4`: 32 lowercase hexadecimal digits. -/
def isUuid4Hex (s : String) : Bool :=
  s.length == 32 && s.toList.all (fun c => c.isDigit || (Char.ofNat 97 ≤ c && c ≤ Char.ofNat 102))

/-- The scenario of spec section 8: update an event's `name` twice, saving
after each change.  Returns the (event, history) pair after the first save
and after the second. -/
def afterTwoNameUpdates (e : Event) (hist : List HistoricalEvent)
    (n1 n2 : String) (t1 t2 f1 f2 : Nat) :
    (Event × List HistoricalEvent) × (Event × List HistoricalEvent) :=
  let first := Event.save { e with name := n1 } hist t1 f1
  let second := Event.save { first.1 with name := n2 } first.2 t2 f2
  (first, second)

/-- Fixture: an audit block of a persisted row with primary key `i`. -/
def fixAudit (i : Nat) : AuditRecord :=
  ⟨some i, some 0, some 0⟩

/-- Fixture: a persisted `Event` row with key `i`, event type `ty` and club
`club`. -/
def fixEvent (i : Nat) (ty club : Option Nat) : Event :=
  { base := fixAudit i, name := "e", locations := "l", dateTime := 0, prize := "",
    minTeam := 0, maxTeam := 0, eventType := ty, association := club, details := "",
    shortDescription := "", ruleList := "", poster := none, rulesPDF := none }

/-- Fixture: a persisted `Registration` row. -/
def fixRegistration (i e u : Nat) : Registration :=
  ⟨fixAudit i, e, u⟩

/-- Fixture: a persisted `DetailWinner` row owned by user `u`. -/
def fixDetailWinner (i u : Nat) : DetailWinner :=
  ⟨fixAudit i, u, "a", "f", "n", "c", "p", none⟩

/-- Fixture: a persisted `TeamWinner` row. -/
def fixTeamWinner (i : Nat) : TeamWinner :=
  ⟨fixAudit i, "t"⟩

/-- Fixture: a persisted `Winners` row for event `eid` with first-place team
`fw` and no second or third place. -/
def fixWinners (i eid fw : Nat) : Winners :=
  ⟨fixAudit i, eid, fw, none, none⟩

/-- Fixture: a persisted `EventType` row in category `cat`. -/
def fixEventType (i : Nat) (cat : Option Nat) : EventType :=
  ⟨fixAudit i, "ty", cat, none⟩

/-- Fixture: a persisted `EventCategory` row. -/
def fixEventCategory (i : Nat) : EventCategory :=
  ⟨fixAudit i, "cat", none⟩

/-- Fixture: a persisted `Club` row. -/
def fixClub (i : Nat) : Club :=
  ⟨fixAudit i, "club"⟩

/-- Fixture: the empty database. -/
def emptyDb : DbState :=
  ⟨[], [], [], [], [], [], [], [], [], [], [], [], [], []⟩

/-- Fixture: event 1 has a `Winners` row (first place: team 41). -/
def winnersDb : DbState :=
  { emptyDb with
    events := [fixEvent 1 none none],
    teamWinners := [fixTeamWinner 41],
    winners := [fixWinners 31 1 41] }

/-- Fixture: user 7 is registered for event 1, owns `DetailWinner` 4, and
that winner is a member of `TeamWinner` 3. -/
def cascadeDb : DbState :=
  { emptyDb with
    users := [7],
    events := [fixEvent 1 none none],
    registrations := [fixRegistration 51 1 7],
    detailWinners := [fixDetailWinner 4 7],
    teamWinners := [fixTeamWinner 3],
    teamWinnerMembers := [(3, 4)] }

/-- Fixture: `cascadeDb` with coordinator join rows - user 7 coordinates
events 1 and 2. -/
def coordDb : DbState :=
  { cascadeDb with eventCoordinators := [(1, 7), (2, 7)] }

/-- Fixture: event 1 and user 7 exist, no registrations yet. -/
def importDb : DbState :=
  { emptyDb with
    users := [7],
    events := [fixEvent 1 none none] }

/-- Fixture: category 5 contains type 11; event 1 is of type 11 and belongs
to club 21. -/
def taxonomyDb : DbState :=
  { emptyDb with
    eventCategories := [fixEventCategory 5],
    eventTypes := [fixEventType 11 (some 5)],
    clubs := [fixClub 21],
    events := [fixEvent 1 (some 11) (some 21)] }

/--
C1: For every entity type (Club, EventCategory, EventType, Event, Registration,
Sponsor, Brochure, DetailWinner, TeamWinner, Winners) and every record of it,
saving the record sets `record_modified` to the save time, and the
`record_created` timestamp set at first save is never changed by any later
update; both timestamps are non-null after creation.  All ten entity saves
delegate to `auditSave`, which stamps both fields on the first save (pk still
`none`) and, on every save of a persisted record, leaves `record_created`
untouched while restamping `record_modified`.
-/
theorem audit_timestamps_invariant (r : AuditRecord) (t fid : Nat) (hnew : r.id = none) :
    (auditSave r t fid).record_created = some t ∧
    (auditSave r t fid).record_modified = some t ∧
    (auditSave r t fid).id.isSome ∧
    (∀ (u : AuditRecord) (t2 f2 : Nat), u.id.isSome →
      (auditSave u t2 f2).record_created = u.record_created ∧
      (auditSave u t2 f2).record_modified = some t2 ∧
      (auditSave u t2 f2).id = u.id) ∧
    (∀ (c : Club) (t1 f1 : Nat), (c.save t1 f1).base = auditSave c.base t1 f1) ∧
    (∀ (c : EventCategory) (t1 f1 : Nat), (c.save t1 f1).base = auditSave c.base t1 f1) ∧
    (∀ (c : EventType) (t1 f1 : Nat), (c.save t1 f1).base = auditSave c.base t1 f1) ∧
    (∀ (e : Event) (h : List HistoricalEvent) (t1 f1 : Nat),
      (Event.save e h t1 f1).1.base = auditSave e.base t1 f1) ∧
    (∀ (c : Registration) (t1 f1 : Nat), (c.save t1 f1).base = auditSave c.base t1 f1) ∧
    (∀ (c : Sponsor) (t1 f1 : Nat), (c.save t1 f1).base = auditSave c.base t1 f1) ∧
    (∀ (c : Brochure) (t1 f1 : Nat), (c.save t1 f1).base = auditSave c.base t1 f1) ∧
    (∀ (c : DetailWinner) (t1 f1 : Nat), (c.save t1 f1).base = auditSave c.base t1 f1) ∧
    (∀ (c : TeamWinner) (t1 f1 : Nat), (c.save t1 f1).base = auditSave c.base t1 f1) ∧
    (∀ (c : Winners) (t1 f1 : Nat), (c.save t1 f1).base = auditSave c.base t1 f1) := by
  refine ⟨?_, ?_, ?_, ?_, ?_, ?_, ?_, ?_, ?_, ?_, ?_, ?_, ?_, ?_⟩
  · simp [auditSave, hnew]
  · simp [auditSave, hnew]
  · simp [auditSave, hnew]
  · intro u t2 f2 hu
    have hns : ¬ u.id = none := by
      cases h : u.id with
      | none => rw [h] at hu; simp at hu
      | some v => simp
    refine ⟨?_, ?_, ?_⟩ <;> simp [auditSave, hns]
    cases h : u.id with
    | none => exact absurd h hns
    | some v => simp
  all_goals intros; rfl

/-- Witness for C1: a concrete fresh record saved at time 5 gets both
timestamps stamped to 5; resaving it at time 9 keeps `record_created = 5`
and moves `record_modified` to 9. -/
theorem audit_timestamps_invariant_witness :
    (auditSave ⟨none, none, none⟩ 5 1).record_created = some 5 ∧
    (auditSave ⟨none, none, none⟩ 5 1).record_modified = some 5 ∧
    (auditSave (auditSave ⟨none, none, none⟩ 5 1) 9 2).record_created = some 5 ∧
    (auditSave (auditSave ⟨none, none, none⟩ 5 1) 9 2).record_modified = some 9 := by
  have h := audit_timestamps_invariant ⟨none, none, none⟩ 5 1 rfl
  have h4 := h.2.2.2.1 (auditSave ⟨none, none, none⟩ 5 1) 9 2 h.2.2.1
  exact ⟨h.1, h.2.1, by rw [h4.1, h.1], h4.2.1⟩

/--
C2: Validating an `Event` on create or update raises ValidationError exactly
when `minTeam < 0` or `maxTeam < 0` (the two `MinValueValidator(0)`
declarations are the only team-size constraints): any pair with both fields
non-negative passes team-size validation, including every pair with
`minTeam > maxTeam`.
-/
theorem event_team_size_validation_iff (e : Event) :
    (validateEventTeamSizes e = Except.error ApiError.validationError ↔
      e.minTeam < 0 ∨ e.maxTeam < 0) ∧
    (validateEventTeamSizes e = Except.ok () ↔ 0 ≤ e.minTeam ∧ 0 ≤ e.maxTeam) := by
  by_cases h1 : e.minTeam < 0 <;> by_cases h2 : e.maxTeam < 0 <;>
    simp [validateEventTeamSizes, minValueValidator, h1, h2]
  omega

/--
C3: For every `Event` that has an associated `Winners` record, deleting the
event fails with `protectedReference` (the `on_delete=PROTECT` declared on
`Winners.eventName`) and no new state is produced, so every row of every
table is untouched.
-/
theorem delete_event_protected_by_winners (s : DbState) (eid now : Nat)
    (h : ∃ w ∈ s.winners, w.eventName = eid) :
    deleteEvent s eid now = Except.error ApiError.protectedReference ∧
    ∀ s2, deleteEvent s eid now ≠ Except.ok s2 := by
  obtain ⟨w, hw, he⟩ := h
  have hany : s.winners.any (fun w => w.eventName == eid) = true :=
    List.any_eq_true.mpr ⟨w, hw, by simp [he]⟩
  refine ⟨by simp [deleteEvent, hany], fun s2 => by simp [deleteEvent, hany]⟩

/-- Witness for C3: in `winnersDb`, event 1 has a `Winners` row, so deleting
event 1 is refused with `protectedReference`. -/
theorem delete_event_protected_by_winners_witness :
    (∃ w ∈ winnersDb.winners, w.eventName = 1) ∧
    deleteEvent winnersDb 1 9 = Except.error ApiError.protectedReference := by
  have h : ∃ w ∈ winnersDb.winners, w.eventName = 1 :=
    ⟨fixWinners 31 1 41, by decide, by decide⟩
  exact ⟨h, (delete_event_protected_by_winners winnersDb 1 9 h).1⟩

/--
C4 counterexample: the claim says that deleting a `User` removes only
`Registration` rows.  In `cascadeDb`, user 7 owns `DetailWinner` 4
(`DetailWinner.user` is a one-to-one with `on_delete=CASCADE`), and deleting
user 7 removes that `DetailWinner` row as well, so rows of another entity are
removed by the cascade.
-/
theorem delete_user_cascade_counterexample :
    fixDetailWinner 4 7 ∈ cascadeDb.detailWinners ∧
    fixDetailWinner 4 7 ∉ (deleteUser cascadeDb 7).detailWinners := by
  decide

/--
C4 (amended): For every `Event` with no `Winners` record, deleting the event
succeeds and removes exactly the event row, the `Registration` rows whose
`registered_event` is that event and the coordinator join rows, leaving every
other table's rows in place (the history log only grows).  Deleting a `User`
removes every `Registration` whose `participant` is that user AND the user's
`DetailWinner` row (one-to-one, cascade), plus the join rows referencing the
removed rows; no other entity table loses rows.
-/
theorem delete_cascades (s : DbState) (eid uid now : Nat)
    (hw : ∀ w ∈ s.winners, w.eventName ≠ eid) :
    (∃ s2, deleteEvent s eid now = Except.ok s2 ∧
      s2.registrations = s.registrations.filter (fun r => !(r.registered_event == eid)) ∧
      s2.events = s.events.filter (fun e => !(e.base.id == some eid)) ∧
      s2.eventCoordinators = s.eventCoordinators.filter (fun p => !(p.1 == eid)) ∧
      s2.clubs = s.clubs ∧
      s2.eventCategories = s.eventCategories ∧
      s2.eventTypes = s.eventTypes ∧
      s2.sponsors = s.sponsors ∧
      s2.brochures = s.brochures ∧
      s2.detailWinners = s.detailWinners ∧
      s2.teamWinners = s.teamWinners ∧
      s2.teamWinnerMembers = s.teamWinnerMembers ∧
      s2.winners = s.winners ∧
      s2.users = s.users ∧
      (∀ hrec ∈ s.eventHistory, hrec ∈ s2.eventHistory)) ∧
    ((deleteUser s uid).registrations =
        s.registrations.filter (fun r => !(r.participant == uid)) ∧
      (deleteUser s uid).detailWinners =
        s.detailWinners.filter (fun d => !(d.user == uid)) ∧
      (deleteUser s uid).eventCoordinators =
        s.eventCoordinators.filter (fun p => !(p.2 == uid)) ∧
      (deleteUser s uid).teamWinnerMembers =
        s.teamWinnerMembers.filter (fun p =>
          !(((s.detailWinners.filter (fun d => d.user == uid)).filterMap
              (fun d => d.base.id)).contains p.2)) ∧
      (deleteUser s uid).events = s.events ∧
      (deleteUser s uid).clubs = s.clubs ∧
      (deleteUser s uid).eventCategories = s.eventCategories ∧
      (deleteUser s uid).eventTypes = s.eventTypes ∧
      (deleteUser s uid).sponsors = s.sponsors ∧
      (deleteUser s uid).brochures = s.brochures ∧
      (deleteUser s uid).teamWinners = s.teamWinners ∧
      (deleteUser s uid).winners = s.winners ∧
      (deleteUser s uid).eventHistory = s.eventHistory) := by
  have hguard : s.winners.any (fun w => w.eventName == eid) = false := by
    rw [List.any_eq_false]
    intro w hwmem
    simpa using hw w hwmem
  constructor
  · refine ⟨{ s with
        events := s.events.filter (fun e => !(e.base.id == some eid)),
        registrations := s.registrations.filter (fun r => !(r.registered_event == eid)),
        eventCoordinators := s.eventCoordinators.filter (fun p => !(p.1 == eid)),
        eventHistory := s.eventHistory ++
          ((s.events.filter (fun e => e.base.id == some eid)).map
            (fun e => { snapshot := e, history_date := now,
                        history_type := HistType.deleted })) },
      ?_, rfl, rfl, rfl, rfl, rfl, rfl, rfl, rfl, rfl, rfl, rfl, rfl, rfl, ?_⟩
    · simp [deleteEvent, hguard]
    · intro hrec hmem
      exact List.mem_append_left _ hmem
  · exact ⟨rfl, rfl, rfl, rfl, rfl, rfl, rfl, rfl, rfl, rfl, rfl, rfl, rfl⟩

/-- Witness for C4 (amended): in `coordDb` (no winners; user 7 coordinates
events 1 and 2), deleting event 1 succeeds, empties the registrations and
removes exactly event 1's coordinator join row, keeping event 2's; deleting
user 7 empties both the registrations and the detail-winner table while the
team-winner row stays. -/
theorem delete_cascades_witness :
    (∀ w ∈ coordDb.winners, w.eventName ≠ 1) ∧
    (deleteEvent coordDb 1 9).isOk = true ∧
    (deleteEvent coordDb 1 9).toOption.map (fun t => t.eventCoordinators) =
      some [(2, 7)] ∧
    (deleteUser coordDb 7).registrations = [] ∧
    (deleteUser coordDb 7).detailWinners = [] ∧
    (deleteUser coordDb 7).teamWinners = coordDb.teamWinners := by
  have h := delete_cascades coordDb 1 7 9 (by decide)
  obtain ⟨s2, hs2, hreg, hev, hcoord, hrest⟩ := h.1
  refine ⟨by decide, by rw [hs2]; rfl, ?_, ?_, ?_, ?_⟩
  · rw [hs2]
    show some s2.eventCoordinators = some [(2, 7)]
    rw [hcoord]
    decide
  · rw [h.2.1]; decide
  · rw [h.2.2.1]; decide
  · exact h.2.2.2.2.2.2.2.2.2.2.2.1

/--
C5 (spec-modelled bulk import): without the `allowed_import` permission a bulk
`Registration` import is refused with `permissionDenied` and no state change
occurs; with the permission the import is atomic - if every row passes
validation all rows are persisted (the table grows by exactly the imported
rows, keeping every pre-existing row), and if any row fails validation
the whole load fails with `validationError` and persists nothing.
-/
theorem bulk_import_gate_and_atomicity (rows : List RegistrationRow)
    (s : DbState) (now freshId : Nat) :
    bulkImport false rows s now freshId = Except.error ApiError.permissionDenied ∧
    (rows.all (registrationRowValid s) = true →
      ∃ s2, bulkImport true rows s now freshId = Except.ok s2 ∧
        s2.registrations.length = s.registrations.length + rows.length ∧
        (∀ r ∈ s.registrations, r ∈ s2.registrations) ∧
        (∀ row ∈ rows, ∃ r ∈ s2.registrations,
          r.registered_event = row.registered_event ∧
          r.participant = row.participant)) ∧
    (rows.all (registrationRowValid s) = false →
      bulkImport true rows s now freshId = Except.error ApiError.validationError) := by
  refine ⟨rfl, ?_, ?_⟩
  · intro hvalid
    refine ⟨{ s with registrations := s.registrations ++
        (rows.enum.map (fun p =>
          Registration.save { base := ⟨none, none, none⟩,
                              registered_event := p.2.registered_event,
                              participant := p.2.participant } now (freshId + p.1))) },
      ?_, ?_, ?_, ?_⟩
    · simp [bulkImport, hvalid]
    · simp [List.length_append, List.length_map, List.enum_length]
    · intro r hr
      exact List.mem_append_left _ hr
    · intro row hrow
      have h2 : row ∈ rows.enum.map Prod.snd := by
        rw [List.enum_map_snd]
        exact hrow
      obtain ⟨p, hp, hpe⟩ := List.mem_map.mp h2
      refine ⟨Registration.save
          { base := ⟨none, none, none⟩,
            registered_event := p.2.registered_event,
            participant := p.2.participant } now (freshId + p.1), ?_, ?_, ?_⟩
      · exact List.mem_append_right _ (List.mem_map.mpr ⟨p, hp, rfl⟩)
      · simp [Registration.save, hpe]
      · simp [Registration.save, hpe]
  · intro hinvalid
    simp [bulkImport, hinvalid]

/-- Witness for C5: with event 1 and user 7 present, importing the row
(event 1, user 7) without the permission is refused, with the permission it
succeeds, and importing a row for the missing event 2 fails validation. -/
theorem bulk_import_gate_and_atomicity_witness :
    bulkImport false [⟨1, 7⟩] importDb 3 10 = Except.error ApiError.permissionDenied ∧
    ([⟨1, 7⟩] : List RegistrationRow).all (registrationRowValid importDb) = true ∧
    (bulkImport true [⟨1, 7⟩] importDb 3 10).isOk = true ∧
    bulkImport true [⟨2, 7⟩] importDb 3 10 = Except.error ApiError.validationError := by
  have h := bulk_import_gate_and_atomicity [⟨1, 7⟩] importDb 3 10
  have hv : ([⟨1, 7⟩] : List RegistrationRow).all (registrationRowValid importDb) = true := by
    decide
  obtain ⟨s2, hs2, hrest⟩ := h.2.1 hv
  have h2 := bulk_import_gate_and_atomicity [⟨2, 7⟩] importDb 3 10
  exact ⟨h.1, hv, by rw [hs2]; rfl, h2.2.2 (by decide)⟩

/--
C6: For every persisted `Event`, updating its `name` twice (saving after each
change) appends exactly two new snapshots to the history log, in chronological
order (`t1 ≤ t2`), each recording the event's field values as they stood at
that change (the first snapshot carries `n1`, the second `n2`, with the
matching modification stamps); every previously written snapshot is still in
the log unchanged.
-/
theorem event_history_two_updates (e : Event) (hist : List HistoricalEvent)
    (i t1 t2 f1 f2 : Nat) (n1 n2 : String)
    (hid : e.base.id = some i) (ht : t1 ≤ t2) :
    (afterTwoNameUpdates e hist n1 n2 t1 t2 f1 f2).2.2 =
      hist ++
        [{ snapshot := (afterTwoNameUpdates e hist n1 n2 t1 t2 f1 f2).1.1,
           history_date := t1, history_type := HistType.changed },
         { snapshot := (afterTwoNameUpdates e hist n1 n2 t1 t2 f1 f2).2.1,
           history_date := t2, history_type := HistType.changed }] ∧
    (afterTwoNameUpdates e hist n1 n2 t1 t2 f1 f2).1.1.name = n1 ∧
    (afterTwoNameUpdates e hist n1 n2 t1 t2 f1 f2).2.1.name = n2 ∧
    (afterTwoNameUpdates e hist n1 n2 t1 t2 f1 f2).1.1.base.record_modified = some t1 ∧
    (afterTwoNameUpdates e hist n1 n2 t1 t2 f1 f2).2.1.base.record_modified = some t2 ∧
    (∀ hrec ∈ hist, hrec ∈ (afterTwoNameUpdates e hist n1 n2 t1 t2 f1 f2).2.2) ∧
    t1 ≤ t2 := by
  refine ⟨?_, ?_, ?_, ?_, ?_, ?_, ht⟩ <;>
    simp [afterTwoNameUpdates, Event.save, auditSave, hid]
  exact fun hrec hmem => Or.inl hmem

/-- Witness for C6: updating the name of event 1 to `a` at time 3, then to
`b` at time 5, leaves exactly the two snapshots in the log, in order, with the
names recorded at each change. -/
theorem event_history_two_updates_witness :
    (fixEvent 1 none none).base.id = some 1 ∧
    (afterTwoNameUpdates (fixEvent 1 none none) [] "a" "b" 3 5 9 9).2.2 =
      [{ snapshot := (afterTwoNameUpdates (fixEvent 1 none none) [] "a" "b" 3 5 9 9).1.1,
         history_date := 3, history_type := HistType.changed },
       { snapshot := (afterTwoNameUpdates (fixEvent 1 none none) [] "a" "b" 3 5 9 9).2.1,
         history_date := 5, history_type := HistType.changed }] ∧
    (afterTwoNameUpdates (fixEvent 1 none none) [] "a" "b" 3 5 9 9).1.1.name = "a" ∧
    (afterTwoNameUpdates (fixEvent 1 none none) [] "a" "b" 3 5 9 9).2.1.name = "b" := by
  have h := event_history_two_updates (fixEvent 1 none none) [] 1 3 5 9 9 "a" "b" rfl
    (by decide)
  exact ⟨rfl, by simpa using h.1, h.2.1, h.2.2.1⟩

/-- Helper: prepending the `PanCard` upload directory. -/
theorem panCard_prefix_append (x : String) :
    "PanCard" ++ "/" ++ x = "PanCard/" ++ x := by
  have h : ("PanCard" ++ "/" : String) = "PanCard/" := rfl
  rw [h]

/--
C7: A `DetailWinner` pan-card upload with original extension `ext` is stored
at `PanCard/<username>.<ext>` when the record already has a primary key, and
at `PanCard/<uuid4 hex token>.<ext>` when it does not; the stored name is
independent of the random token exactly when the record already exists (two
different tokens give two different stored names for a fresh record).
-/
theorem pan_card_upload_path (k : Nat) (username tok filename : String)
    (_htok : isUuid4Hex tok = true) :
    path_and_rename (some k) username tok filename =
      "PanCard/" ++ username ++ "." ++ fileExt filename ∧
    path_and_rename none username tok filename =
      "PanCard/" ++ tok ++ "." ++ fileExt filename ∧
    (∀ tok2 : String, path_and_rename (some k) username tok2 filename =
      path_and_rename (some k) username tok filename) ∧
    path_and_rename none "u" "00000000000000000000000000000000" "p.jpg" ≠
      path_and_rename none "u" "11111111111111111111111111111111" "p.jpg" := by
  refine ⟨?_, ?_, fun tok2 => rfl, by decide⟩
  · show "PanCard" ++ "/" ++ (username ++ "." ++ fileExt filename) = _
    rw [panCard_prefix_append]
    simp [String.append_assoc]
  · show "PanCard" ++ "/" ++ (tok ++ "." ++ fileExt filename) = _
    rw [panCard_prefix_append]
    simp [String.append_assoc]

/-- Witness for C7: with the pan-card photo `photo.jpg` of user `alice` and a
concrete uuid token, the stored path is `PanCard/alice.jpg` for a persisted
record and `PanCard/<token>.jpg` for a fresh one. -/
theorem pan_card_upload_path_witness :
    isUuid4Hex "0123456789abcdef0123456789abcdef" = true ∧
    path_and_rename (some 2) "alice" "0123456789abcdef0123456789abcdef" "photo.jpg" =
      "PanCard/alice.jpg" ∧
    path_and_rename none "alice" "0123456789abcdef0123456789abcdef" "photo.jpg" =
      "PanCard/0123456789abcdef0123456789abcdef.jpg" := by
  have h := pan_card_upload_path 2 "alice" "0123456789abcdef0123456789abcdef" "photo.jpg"
    (by decide)
  refine ⟨by decide, ?_, ?_⟩
  · rw [h.1]; decide
  · rw [h.2.1]; decide

/--
C8: When a `Registration` linking participant `p` to event `e` already exists,
creating a second `Registration` for the same pair succeeds and afterwards
both rows exist - the original row is still present, the new row (with its
fresh primary key) is present, and at least two rows match the pair: no
uniqueness constraint rejects the duplicate.
-/
theorem duplicate_registration_allowed (s : DbState) (r : Registration)
    (p e now fid : Nat) (hmem : r ∈ s.registrations)
    (hp : r.participant = p) (he : r.registered_event = e) :
    r ∈ (createRegistration s e p now fid).registrations ∧
    (∃ r2 ∈ (createRegistration s e p now fid).registrations,
      r2.registered_event = e ∧ r2.participant = p ∧ r2.base.id = some fid) ∧
    2 ≤ (createRegistration s e p now fid).registrations.countP
        (fun x => x.registered_event == e && x.participant == p) := by
  refine ⟨List.mem_append_left _ hmem, ?_, ?_⟩
  · exact ⟨Registration.save
      { base := ⟨none, none, none⟩, registered_event := e, participant := p } now fid,
      List.mem_append_right _ (List.mem_singleton.mpr rfl), rfl, rfl, rfl⟩
  · have hpos : 0 < s.registrations.countP
        (fun x => x.registered_event == e && x.participant == p) :=
      List.countP_pos_iff.mpr ⟨r, hmem, by simp [hp, he]⟩
    have hsum : (createRegistration s e p now fid).registrations.countP
        (fun x => x.registered_event == e && x.participant == p) =
        s.registrations.countP
          (fun x => x.registered_event == e && x.participant == p) + 1 := by
      simp [createRegistration, List.countP_append, Registration.save, List.countP_cons]
    omega

/-- Witness for C8: user 7 is already registered for event 1 in `cascadeDb`;
registering the same pair again leaves at least two matching rows. -/
theorem duplicate_registration_allowed_witness :
    fixRegistration 51 1 7 ∈ cascadeDb.registrations ∧
    2 ≤ (createRegistration cascadeDb 1 7 9 60).registrations.countP
        (fun x => x.registered_event == 1 && x.participant == 7) := by
  have h := duplicate_registration_allowed cascadeDb (fixRegistration 51 1 7) 7 1 9 60
    (by decide) rfl rfl
  exact ⟨by decide, h.2.2⟩

/--
C9 counterexample: the claim says a `DetailWinner` that is a member of some
`TeamWinner` cannot be deleted.  In `cascadeDb`, `DetailWinner` 4 is a member
of `TeamWinner` 3, yet deleting it succeeds (the `members` relation is a plain
many-to-many with no `PROTECT`), removing the row and its membership join
row.
-/
theorem member_detail_winner_delete_counterexample :
    (3, 4) ∈ cascadeDb.teamWinnerMembers ∧
    fixDetailWinner 4 7 ∈ cascadeDb.detailWinners ∧
    (deleteDetailWinner cascadeDb 4).toOption =
      some { cascadeDb with detailWinners := [], teamWinnerMembers := [] } := by
  decide

/--
C9 (amended): While a `TeamWinner` is referenced as `firstWinner`,
`secondWinner` or `thirdWinner` of some `Winners` record, deleting it fails
with `protectedReference` and nothing changes; a `DetailWinner`, by contrast,
is never delete-protected: `TeamWinner.members` is a plain many-to-many, so
deleting a `DetailWinner` always succeeds, removing the row, its membership
join rows, and nothing else.
-/
theorem protected_winner_references (s : DbState) (tid did : Nat)
    (h : ∃ w ∈ s.winners,
      w.firstWinner = tid ∨ w.secondWinner = some tid ∨ w.thirdWinner = some tid) :
    deleteTeamWinner s tid = Except.error ApiError.protectedReference ∧
    (∀ s2, deleteTeamWinner s tid ≠ Except.ok s2) ∧
    (∃ s2, deleteDetailWinner s did = Except.ok s2 ∧
      s2.detailWinners = s.detailWinners.filter (fun d => !(d.base.id == some did)) ∧
      s2.teamWinnerMembers = s.teamWinnerMembers.filter (fun p => !(p.2 == did)) ∧
      s2.teamWinners = s.teamWinners ∧
      s2.winners = s.winners) := by
  obtain ⟨w, hw, href⟩ := h
  have hany : s.winners.any (fun w =>
      w.firstWinner == tid || w.secondWinner == some tid ||
        w.thirdWinner == some tid) = true := by
    refine List.any_eq_true.mpr ⟨w, hw, ?_⟩
    rcases href with h1 | h2 | h3
    · simp [h1]
    · simp [h2]
    · simp [h3]
  refine ⟨by simp [deleteTeamWinner, hany], fun s2 => by simp [deleteTeamWinner, hany],
    ⟨_, rfl, rfl, rfl, rfl, rfl⟩⟩

/-- Witness for C9 (amended): team 41 is the first winner of event 1 in
`winnersDb`, so deleting it is refused; deleting any detail winner (id 9)
still goes through. -/
theorem protected_winner_references_witness :
    (∃ w ∈ winnersDb.winners,
      w.firstWinner = 41 ∨ w.secondWinner = some 41 ∨ w.thirdWinner = some 41) ∧
    deleteTeamWinner winnersDb 41 = Except.error ApiError.protectedReference ∧
    (deleteDetailWinner winnersDb 9).isOk = true := by
  have hh : ∃ w ∈ winnersDb.winners,
      w.firstWinner = 41 ∨ w.secondWinner = some 41 ∨ w.thirdWinner = some 41 :=
    ⟨fixWinners 31 1 41, by decide, Or.inl rfl⟩
  have h := protected_winner_references winnersDb 41 9 hh
  obtain ⟨h1, h2, s2, hs2, hrest⟩ := h
  exact ⟨hh, h1, by rw [hs2]; rfl⟩

/--
C10: Deleting an `EventCategory` deletes every `EventType` of that category
(cascade), while every `Event` survives: an event whose type was one of the
deleted types keeps all its other fields and gets `eventType = none`
(`SET_NULL`), and any other event is untouched.  Deleting a `Club` likewise
keeps every `Event`, nulling `association` exactly on the club's events.
-/
theorem taxonomy_delete_sets_null (s : DbState) (cid clid : Nat) :
    ((deleteEventCategory s cid).eventCategories =
       s.eventCategories.filter (fun c => !(c.base.id == some cid)) ∧
     (deleteEventCategory s cid).eventTypes =
       s.eventTypes.filter (fun t => !(t.eventCategory == some cid)) ∧
     (deleteEventCategory s cid).events.length = s.events.length ∧
     (∀ e ∈ s.events, ∃ e2 ∈ (deleteEventCategory s cid).events,
       e2.base = e.base ∧ e2.name = e.name ∧ e2.locations = e.locations ∧
       e2.dateTime = e.dateTime ∧ e2.prize = e.prize ∧ e2.minTeam = e.minTeam ∧
       e2.maxTeam = e.maxTeam ∧ e2.association = e.association ∧
       e2.details = e.details ∧ e2.shortDescription = e.shortDescription ∧
       e2.ruleList = e.ruleList ∧ e2.poster = e.poster ∧ e2.rulesPDF = e.rulesPDF ∧
       e2.eventType = (if e.eventType.any (fun i =>
           ((s.eventTypes.filter (fun t => t.eventCategory == some cid)).filterMap
             (fun t => t.base.id)).contains i) then none else e.eventType))) ∧
    ((deleteClub s clid).clubs =
       s.clubs.filter (fun c => !(c.base.id == some clid)) ∧
     (deleteClub s clid).events.length = s.events.length ∧
     (∀ e ∈ s.events, ∃ e2 ∈ (deleteClub s clid).events,
       e2.base = e.base ∧ e2.name = e.name ∧ e2.locations = e.locations ∧
       e2.dateTime = e.dateTime ∧ e2.prize = e.prize ∧ e2.minTeam = e.minTeam ∧
       e2.maxTeam = e.maxTeam ∧ e2.eventType = e.eventType ∧
       e2.details = e.details ∧ e2.shortDescription = e.shortDescription ∧
       e2.ruleList = e.ruleList ∧ e2.poster = e.poster ∧ e2.rulesPDF = e.rulesPDF ∧
       e2.association = (if e.association == some clid then none else e.association))) := by
  constructor
  · refine ⟨rfl, rfl, ?_, ?_⟩
    · simp [deleteEventCategory]
    · intro e he
      refine ⟨_, List.mem_map_of_mem (fun e =>
          if e.eventType.any (fun i =>
              ((s.eventTypes.filter (fun t => t.eventCategory == some cid)).filterMap
                (fun t => t.base.id)).contains i) then
            { e with eventType := none }
          else e) he, ?_⟩
      cases hc : e.eventType.any (fun i =>
          ((s.eventTypes.filter (fun t => t.eventCategory == some cid)).filterMap
            (fun t => t.base.id)).contains i) with
      | false => simp
      | true => simp
  · refine ⟨rfl, ?_, ?_⟩
    · simp [deleteClub]
    · intro e he
      refine ⟨_, List.mem_map_of_mem (fun e =>
          if e.association == some clid then { e with association := none } else e) he, ?_⟩
      cases hc : e.association == some clid with
      | false => simp
      | true => simp

/-- Witness for C10: deleting category 5 in `taxonomyDb` removes type 11 and
leaves event 1 with `eventType = none`; deleting club 21 leaves event 1 with
`association = none`. -/
theorem taxonomy_delete_sets_null_witness :
    fixEvent 1 (some 11) (some 21) ∈ taxonomyDb.events ∧
    (deleteEventCategory taxonomyDb 5).eventTypes = [] ∧
    (deleteEventCategory taxonomyDb 5).events =
      [{ fixEvent 1 (some 11) (some 21) with eventType := none }] ∧
    (deleteClub taxonomyDb 21).events =
      [{ fixEvent 1 (some 11) (some 21) with association := none }] := by
  have h := taxonomy_delete_sets_null taxonomyDb 5 21
  refine ⟨by decide, ?_, by decide, by decide⟩
  rw [h.1.2.1]
  decide

end Pecfest
